import Mathlib

/-
Verification of the yookassa-sdk-go core mechanisms: idempotent request
dispatch and polymorphic (variant) resource decoding.

Shallow embedding conventions:
  * Go byte slices and already-formatted text are `String`.
  * A decoded generic JSON value (`map[string]interface{}` entries) is the
    inductive `JsonValue`; Go maps are association lists looked up on the
    first matching key (a real Go map has no duplicate keys).  JSON numbers
    decode to Go `float64`; no verified operation inspects a numeric payload
    beyond its dynamic type, so the payload is carried as an `Int`.
  * A dynamically typed Go interface value that may hold a payment-method
    variant, a pointer to one, or a generic mapping is the inductive
    `GoValue`; a `nil` interface is `GoValue.other "<nil>"` (what `%T`
    prints for it).
  * Fallible Go functions returning `(T, error)` become `Except String T`
    (errors are the exact `fmt.Errorf` message texts); functions that can
    additionally panic return `GoResult T`.
-/

set_option autoImplicit false
set_option maxRecDepth 8192

/-- A decoded JSON value as Go's `encoding/json` produces it into
`map[string]interface{}` / `interface{}`. -/
inductive JsonValue where
  | str (s : String)
  | num (n : Int)
  | boolv (b : Bool)
  | null
  | obj (fields : List (String × JsonValue))
  | arr (elems : List JsonValue)

/-- The Go dynamic type name (`%T`) of a value stored in a decoded
`map[string]interface{}`. -/
def goJsonTypeName : JsonValue → String
  | .str _ => "string"
  | .num _ => "float64"
  | .boolv _ => "bool"
  | .null => "<nil>"
  | .obj _ => "map[string]interface \x7b\x7d"
  | .arr _ => "[]interface \x7b\x7d"

/-- The JSON kind name used in `encoding/json` unmarshal type errors. -/
def jsonKindName : JsonValue → String
  | .str _ => "string"
  | .num _ => "number"
  | .boolv _ => "bool"
  | .null => "null"
  | .obj _ => "object"
  | .arr _ => "array"

/-- Go map indexing `m[k]`: the value under the first (only) matching key. -/
def jlookup (m : List (String × JsonValue)) (k : String) : Option JsonValue :=
  match m with
  | [] => none
  | (k', v) :: rest => if k' = k then some v else jlookup rest k

/-- Go `yoocommon.Amount`: a plain data carrier (its Go source is an external
data-transfer concern; only its presence as a field matters here). -/
structure Amount where
  Value : String
  Currency : String

/-- Go `yoocommon.Item` (src/yookassa/common/item.go). -/
structure Item where
  Description : String
  Quantity : Int
  Amount : Option Amount
  VatCode : Int
  Measure : String := ""
  PaymentSubject : String := ""
  PaymentMode : String := ""

/-- Go `MAX_DESCRIPTION_LENGTH` (src/yookassa/common/item.go). -/
def MAX_DESCRIPTION_LENGTH : Nat := 128

/-- Go `Item.MarshalJSON` (src/yookassa/common/item.go): the observable content
of the emitted JSON is the plain field encoding of the truncated copy
(`json.Marshal(Alias(truncated))`); the byte-level JSON rendering itself is
the standard library's and carries the fields unchanged, so the embedding
returns the truncated `Item`.  `utf8.RuneCountInString` is `String.length`
(code-point count) and `string(runes[:128])` is the 128-code-point
character-list front. -/
def Item.MarshalJSON (u : Item) : Item :=
  if u.Description.length > MAX_DESCRIPTION_LENGTH then
    { u with Description := String.mk (u.Description.toList.take MAX_DESCRIPTION_LENGTH) }
  else u

/-- Modelled from the spec: `BasePaymentMethod`, the Go struct for the base
payment-method variant, is not among the provided sources; the spec gives the
variant family a shared string discriminator field `type` and a method
identity, so the shared fields are the discriminator and the identifier. -/
structure BasePaymentMethod where
  Type_ : String
  ID : String

/-- Modelled from the spec: `SBP` — the fast-payment-system variant's Go
struct is not among the provided sources; `sbp.paymentMethod.Type` and the
promoted `sbp.Type` in payment.go show it embeds the shared base fields as
an anonymous `paymentMethod` struct whose exported fields are flattened in
JSON. -/
structure SBP where
  paymentMethod : BasePaymentMethod

/-- Modelled from the spec: `PaymentTypeSBP` — the constant is not among the
provided sources; per the spec the discriminator tag of the
fast-payment-system variant is `"sbp"`. -/
def PaymentTypeSBP : String := "sbp"

/-- A dynamically typed Go `interface{}` value as it may appear in the
`PaymentMethod` / `Confirmation` / `Metadata` fields: a concrete variant
value, a pointer to one (`Option` distinguishes `nil`), a generic decoded
mapping, a plain string, or any other dynamic value identified by its `%T`
type name (`other "<nil>"` is the nil interface). -/
inductive GoValue where
  | mapv (m : List (String × JsonValue))
  | sbpVal (s : SBP)
  | sbpPtr (p : Option SBP)
  | baseVal (b : BasePaymentMethod)
  | basePtr (p : Option BasePaymentMethod)
  | strv (s : String)
  | other (typeName : String)

/-- The Go dynamic type name (`%T`) of a `GoValue`. -/
def goTypeName : GoValue → String
  | .mapv _ => "map[string]interface \x7b\x7d"
  | .sbpVal _ => "yoopayment.SBP"
  | .sbpPtr _ => "*yoopayment.SBP"
  | .baseVal _ => "yoopayment.BasePaymentMethod"
  | .basePtr _ => "*yoopayment.BasePaymentMethod"
  | .strv _ => "string"
  | .other t => t

/-- The `yoopayment.Payment` entity (src/yookassa/payment/payment.go),
restricted to the fields any verified operation reads plus representative
plain scalars.  Fields of types declared outside the specified core
(amounts, receipts, recipients, deals, transfers, timestamps, cancellation
and authorization details) are untouched data-transfer payload carried by
no verified operation and are elided. -/
structure Payment where
  ID : String := ""
  Status : String := ""
  Capture : Bool := false
  Description : String := ""
  PaymentMethod : GoValue := .other "<nil>"
  PaymentMethodID : String := ""
  SavePaymentMethod : Bool := false
  Confirmation : GoValue := .other "<nil>"
  Test : Bool := false
  Paid : Bool := false
  Refundable : Bool := false
  Metadata : GoValue := .other "<nil>"
  MerchantCustomerID : String := ""

/-- Go `(*Payment).GetConfirmationToken` (src/yookassa/payment/payment.go). -/
def Payment.GetConfirmationToken (p : Payment) : Except String String :=
  match p.Confirmation with
  | .mapv m =>
    match jlookup m "confirmation_token" with
    | none => .error "confirmation_token not found in confirmation map"
    | some raw =>
      match raw with
      | .str token =>
        if token = "" then .error "confirmation_token is empty" else .ok token
      | _ => .error ("confirmation_token is not a string, got " ++ goJsonTypeName raw)
  | _ => .error "confirmation is not a map"

/-- Go `(*Payment).GetInvoiceIdFromMetadata` (src/yookassa/payment/payment.go). -/
def Payment.GetInvoiceIdFromMetadata (p : Payment) : Except String String :=
  match p.Metadata with
  | .mapv m =>
    match jlookup m "invoice_id" with
    | none => .error "invoice_id not found in metadata map"
    | some raw =>
      match raw with
      | .str id =>
        if id = "" then .error "invoice_id is empty" else .ok id
      | _ => .error ("invoice_id is not a string, got " ++ goJsonTypeName raw)
  | _ => .error ("metadata is not a map[string]any, got " ++ goTypeName p.Metadata)

/-- The outcome of a Go function that can return a value, return an error,
or panic (a nil-pointer dereference in a type-switch `case *T` arm). -/
inductive GoResult (T : Type) where
  | ok (t : T)
  | err (msg : String)
  | panics (msg : String)

/-- The panic message of a Go nil-pointer dereference. -/
def nilDerefMsg : String :=
  "runtime error: invalid memory address or nil pointer dereference"

/-- The reflective data a Go generic type-switch on `T` needs, one instance
per instantiation of `convertPaymentMethod[T]`: whether a dynamic value is a
`T` (`asVal`), whether it is a `*T` with its pointee (`asPtr`, `some none`
being a nil `*T`), the unmarshal of a generic mapping into `T` (the
`json.Marshal` of a decoded generic mapping cannot fail, so the composite
re-encode/decode is the direct decode of the mapping), and the `%T` name of
`T` for error reporting. -/
structure GoStructType (T : Type) where
  name : String
  asVal : GoValue → Option T
  asPtr : GoValue → Option (Option T)
  unmarshal : List (String × JsonValue) → Except String T

/-- Go `encoding/json` unmarshalling of one string-typed struct field from a
decoded generic mapping: an absent key or a JSON null leaves the zero value,
a string is taken as is, any other kind is an unmarshal type error. -/
def decodeStringField (m : List (String × JsonValue)) (key : String) : Except String String :=
  match jlookup m key with
  | none => .ok ""
  | some .null => .ok ""
  | some (.str s) => .ok s
  | some v => .error ("json: cannot unmarshal " ++ jsonKindName v ++ " into Go value of type string")

/-- Go `encoding/json` unmarshalling of a generic mapping into
`BasePaymentMethod` (json tags `type` and `id`; unknown keys are ignored). -/
def decodeBasePaymentMethod (m : List (String × JsonValue)) : Except String BasePaymentMethod := do
  let t ← decodeStringField m "type"
  let i ← decodeStringField m "id"
  return { Type_ := t, ID := i }

/-- Go `encoding/json` unmarshalling of a generic mapping into `SBP`: the
embedded base struct's promoted exported fields are flattened. -/
def decodeSBP (m : List (String × JsonValue)) : Except String SBP :=
  (decodeBasePaymentMethod m).map (fun b => { paymentMethod := b })

/-- The `GoStructType` instance for `T = SBP`. -/
def sbpGoType : GoStructType SBP where
  name := "yoopayment.SBP"
  asVal := fun v => match v with | .sbpVal s => some s | _ => none
  asPtr := fun v => match v with | .sbpPtr p => some p | _ => none
  unmarshal := decodeSBP

/-- The `GoStructType` instance for `T = BasePaymentMethod`. -/
def baseGoType : GoStructType BasePaymentMethod where
  name := "yoopayment.BasePaymentMethod"
  asVal := fun v => match v with | .baseVal b => some b | _ => none
  asPtr := fun v => match v with | .basePtr p => some p | _ => none
  unmarshal := decodeBasePaymentMethod

/-- Go `convertPaymentMethod[T]` (src/yookassa/payment/payment.go): the Go
type-switch tries `case *T` (dereferencing the pointer: a nil `*T` panics),
then `case T`, then `case map[string]interface\x7b\x7d` (marshal the mapping —
which cannot fail on a decoded mapping — and unmarshal the bytes into `T`),
and the default arm fails reporting the dynamic type `%T` of the source. -/
def convertPaymentMethod {T : Type} (gt : GoStructType T) (pm : GoValue) : GoResult T :=
  match gt.asPtr pm with
  | some (some v) => .ok v
  | some none => .panics nilDerefMsg
  | none =>
    match gt.asVal pm with
    | some v => .ok v
    | none =>
      match pm with
      | .mapv m =>
        match gt.unmarshal m with
        | .ok result => .ok result
        | .error e => .err ("failed to unmarshal to " ++ gt.name ++ ": " ++ e)
      | _ => .err ("unsupported payment method type: " ++ goTypeName pm)

/-- The resolution strategy in the spec's words (refinement reference for
`convertPaymentMethod`): try exact type match, then pointer-dereference
match, then decode-from-mapping, else fail with an unsupported-source-shape
error reporting the encountered shape identifier. -/
def specResolveVariant {T : Type} (gt : GoStructType T) (v : GoValue) : GoResult T :=
  match gt.asVal v with
  | some t => .ok t
  | none =>
    match gt.asPtr v with
    | some (some t) => .ok t
    | some none => .panics nilDerefMsg
    | none =>
      match v with
      | .mapv m =>
        match gt.unmarshal m with
        | .ok result => .ok result
        | .error e => .err ("failed to unmarshal to " ++ gt.name ++ ": " ++ e)
      | _ => .err ("unsupported payment method type: " ++ goTypeName v)

/-- Go `(*Payment).GetBasePaymentMethod` (src/yookassa/payment/payment.go). -/
def Payment.GetBasePaymentMethod (p : Payment) : GoResult BasePaymentMethod :=
  convertPaymentMethod baseGoType p.PaymentMethod

/-- Go `(*Payment).GetPaymentMethodSbp` (src/yookassa/payment/payment.go).
The second component is the console output: the source executes
`fmt.Println("ALE", sbp.Type)` after a successful conversion and before the
discriminator check, so every successful conversion emits the line
`ALE <type>`. -/
def Payment.GetPaymentMethodSbp (p : Payment) : GoResult SBP × List String :=
  match convertPaymentMethod sbpGoType p.PaymentMethod with
  | .err e => (.err e, [])
  | .panics msg => (.panics msg, [])
  | .ok sbp =>
    if sbp.paymentMethod.Type_ ≠ PaymentTypeSBP then
      (.err ("payment method is not SBP, got " ++ sbp.paymentMethod.Type_),
       ["ALE " ++ sbp.paymentMethod.Type_])
    else
      (.ok sbp, ["ALE " ++ sbp.paymentMethod.Type_])

/-- Go `BaseURL` (src/unnamed/part_000). -/
def BaseURL : String := "https://api.yookassa.ru/v3/"

/-- Go `Client` (src/unnamed/part_000): the embedded `http.Client` value holds no
per-operation state and is the external transport, so only the credentials
are carried. -/
structure Client where
  accountId : String
  secretKey : String

/-- Go `NewClient` (src/unnamed/part_000). -/
def NewClient (accountId : String) (secretKey : String) : Client :=
  { accountId := accountId, secretKey := secretKey }

/-- The lowercase hex digit of `n < 16`. -/
def hexDigit (n : Nat) : Char :=
  if n < 10 then Char.ofNat (48 + n) else Char.ofNat (87 + n)

/-- The fixed-width big-endian hex rendering of `v` on `d` digits. -/
def toHexChars : Nat → Nat → List Char
  | 0, _ => []
  | d + 1, v => toHexChars d (v / 16) ++ [hexDigit (v % 16)]

/-- External `uuid.NewString()` of the google/uuid library: the canonical
8-4-4-4-12 hex rendering of a 128-bit random value, the randomness drawn
being the `entropy` argument (the version/variant bit fiddling is not
observable by anything verified here). -/
def uuidNewString (entropy : Nat) : String :=
  String.mk
    (toHexChars 8 (entropy / 2 ^ 96) ++ '-' ::
      (toHexChars 4 (entropy / 2 ^ 80) ++ '-' ::
        (toHexChars 4 (entropy / 2 ^ 64) ++ '-' ::
          (toHexChars 4 (entropy / 2 ^ 48) ++ '-' :: toHexChars 12 entropy))))

/-- Go `http.Header.Set`: replaces any existing values under the key, else
appends the entry. -/
def setHeader (hs : List (String × String)) (k v : String) : List (String × String) :=
  match hs with
  | [] => [(k, v)]
  | (k', v') :: rest =>
    if k' = k then (k, v) :: setHeader rest k v else (k', v') :: setHeader rest k v

/-- Header read-back: the value stored under a key, if any. -/
def headerGet (hs : List (String × String)) (k : String) : Option String :=
  match hs with
  | [] => none
  | (k', v) :: rest => if k' = k then some v else headerGet rest k

/-- The query-string rendering of the parameters (`url.Values.Encode` after
the `q.Add` loop).  The parameters arrive already `%v`-formatted; the
percent-encoding of the rendered text and the map iteration order are
transport-library concerns no verified claim observes. -/
def encodeQuery (params : List (String × String)) : String :=
  String.intercalate "&" (params.map (fun p => p.1 ++ "=" ++ p.2))

/-- The outward HTTP request built by the dispatcher. -/
structure GoRequest where
  method : String
  url : String
  headers : List (String × String)
  body : String
  rawQuery : String

/-- Go `(*Client).makeRequest` (src/unnamed/part_000), up to the point where the
built request is handed to the transport (`c.client.Do` and its
transport-level failure are the external transport, passed through
unmodified; `http.NewRequest` cannot fail on the token methods and base URL
used here).  An empty supplied idempotency key is replaced by
`uuid.NewString()` — whose randomness is the `entropy` argument — before the
method check; only `http.MethodPost` requests get the `Content-Type` and
`Idempotence-Key` headers; basic auth is attached to every request as the
`Authorization` header (its base64 wrapping is the http library's and is
kept as the spec's `Basic <account:secret>` text). -/
def makeRequest (c : Client) (method : String) (endpoint : String) (body : String)
    (params : List (String × String)) (idempotencyKey : String) (entropy : Nat) : GoRequest :=
  let key := if idempotencyKey = "" then uuidNewString entropy else idempotencyKey
  let baseHeaders : List (String × String) :=
    if method = "POST" then
      setHeader (setHeader [] "Content-Type" "application/json") "Idempotence-Key" key
    else []
  { method := method
    url := BaseURL ++ endpoint
    headers := setHeader baseHeaders "Authorization" ("Basic " ++ c.accountId ++ ":" ++ c.secretKey)
    body := body
    rawQuery := encodeQuery params }

/-- Modelled from the spec: `PaymentHandler` — its source file is not
among the provided sources (only its test is); per the test it carries a
client reference (`NewPaymentHandler(nil)` passes a nil client) and one
idempotency-key slot. -/
structure PaymentHandler where
  client : Option Client
  idempotencyKey : String

/-- Modelled from the spec: `NewPaymentHandler` — its source file is not among
the provided sources; a fresh handler starts with
an empty idempotency slot. -/
def NewPaymentHandler (client : Option Client) : PaymentHandler :=
  { client := client, idempotencyKey := "" }

/-- Modelled from the spec: `SetIdempotencyKey` (the spec's `SetKey`) — its
source file is not among the provided sources.  Per the spec: if
the slot is empty, stores the key and returns the handler builder-style; if
the slot is already populated, a no-op that still returns the handler
unchanged.  The test in src/unnamed/part_000 pins Go value-receiver (copy)
semantics — the receiver the caller holds is not mutated — which the pure
state-passing embedding has by construction. -/
def PaymentHandler.SetIdempotencyKey (p : PaymentHandler) (key : String) : PaymentHandler :=
  if p.idempotencyKey = "" then { p with idempotencyKey := key } else p

/-- Modelled from the spec: `ConsumeOrGenerate` — its source file is not among
the provided sources; per the spec it returns the stored key if
present, otherwise a freshly generated token, and clears the slot to empty
immediately after, regardless of path. -/
def PaymentHandler.ConsumeOrGenerate (p : PaymentHandler) (entropy : Nat) : String × PaymentHandler :=
  (if p.idempotencyKey = "" then uuidNewString entropy else p.idempotencyKey,
   { p with idempotencyKey := "" })

/-- Modelled from the spec: one dispatch through a handler (the handler
methods that send requests are not among the provided sources) — the handler
consumes (or generates) its idempotency key, hands it to the dispatcher's
`makeRequest`, and comes out of the dispatch with an empty slot. -/
def PaymentHandler.dispatch (p : PaymentHandler) (c : Client) (method : String)
    (endpoint : String) (body : String) (params : List (String × String))
    (entropy : Nat) : GoRequest × PaymentHandler :=
  let consumed := p.ConsumeOrGenerate entropy
  (makeRequest c method endpoint body params consumed.1 entropy, consumed.2)

/-- The spec's words for "state-mutating HTTP method" (refinement reference
for the dispatcher's header rule): the standard non-read-only methods. -/
def isStateMutating (method : String) : Bool :=
  method = "POST" || method = "PUT" || method = "PATCH" || method = "DELETE"

/-- A concrete 130-code-point, multi-byte description input for exercising
the truncation. -/
def c6Item : Item :=
  { Description := String.mk (List.replicate 130 'é')
    Quantity := 1
    Amount := none
    VatCode := 1 }

theorem toHexChars_length : ∀ (d v : Nat), (toHexChars d v).length = d := by
  intro d
  induction d with
  | zero => intro v; rfl
  | succ n ih => intro v; simp [toHexChars, ih]

theorem uuidNewString_data_length (entropy : Nat) :
    (uuidNewString entropy).data.length = 36 := by
  simp [uuidNewString, toHexChars_length]

theorem uuidNewString_ne_empty (entropy : Nat) : uuidNewString entropy ≠ "" := by
  intro h
  have hlen := uuidNewString_data_length entropy
  rw [h] at hlen
  simp at hlen

theorem headerGet_setHeader_eq (hs : List (String × String)) (k v : String) :
    headerGet (setHeader hs k v) k = some v := by
  induction hs with
  | nil => simp [setHeader, headerGet]
  | cons p rest ih =>
    by_cases h : p.1 = k
    · simp [setHeader, headerGet, h, ih]
    · simp [setHeader, headerGet, h, ih]

theorem headerGet_setHeader_ne (hs : List (String × String)) (k k' v : String)
    (h : k' ≠ k) : headerGet (setHeader hs k' v) k = headerGet hs k := by
  induction hs with
  | nil => simp [setHeader, headerGet, h]
  | cons p rest ih =>
    by_cases hp : p.1 = k'
    · simp [setHeader, headerGet, hp, h, ih]
    · by_cases hk : p.1 = k
      · simp [setHeader, headerGet, hp, hk, h.symm]
      · simp [setHeader, headerGet, hp, hk, ih]

/-- Claim C6: serializing an `Item` whose description exceeds 128 code
points yields a description of exactly 128 code points; truncation counts
decoded characters (the `String.length` rune count), the kept text is the
128-character front of the original character sequence (so no multi-byte
sequence is broken at the cut); nothing but the description changes, and a
description within the limit is left entirely unchanged. -/
theorem item_description_truncation (u : Item) :
    (u.Description.length > 128 →
        (u.MarshalJSON).Description.length = 128
      ∧ (u.MarshalJSON).Description.toList = u.Description.toList.take 128
      ∧ u.MarshalJSON = { u with Description := (u.MarshalJSON).Description })
  ∧ (u.Description.length ≤ 128 → u.MarshalJSON = u) := by
  constructor
  · intro h
    have hgt : u.Description.length > MAX_DESCRIPTION_LENGTH := h
    have hd : u.Description.toList.length = u.Description.length := rfl
    rw [Item.MarshalJSON, if_pos hgt]
    refine ⟨?_, rfl, rfl⟩
    show (u.Description.toList.take MAX_DESCRIPTION_LENGTH).length = 128
    rw [List.length_take, hd]
    simp only [MAX_DESCRIPTION_LENGTH]
    omega
  · intro h
    have hle : ¬ u.Description.length > MAX_DESCRIPTION_LENGTH := by
      simp [MAX_DESCRIPTION_LENGTH]; omega
    rw [Item.MarshalJSON, if_neg hle]


/-- Witness for C6: a 130-code-point description of two-byte characters
(260 UTF-8 bytes) serializes to exactly 128 code points — the 128-character
front of the original — while its UTF-8 byte count 256 still exceeds 128,
showing the cut counts runes, not bytes. -/
theorem item_description_truncation_witness :
    c6Item.Description.length > 128
  ∧ (c6Item.MarshalJSON).Description.length = 128
  ∧ (c6Item.MarshalJSON).Description.toList = c6Item.Description.toList.take 128
  ∧ c6Item.Description.utf8ByteSize = 260
  ∧ (c6Item.MarshalJSON).Description.utf8ByteSize = 256 := by
  have h : c6Item.Description.length > 128 := by decide
  have hmain := (item_description_truncation c6Item).1 h
  exact ⟨h, hmain.1, hmain.2.1, by decide, by decide⟩

/-- Claim C5: for each scalar extraction (`GetConfirmationToken` on the
confirmation field, `GetInvoiceIdFromMetadata` on the metadata field): a
non-mapping value fails with the shape error, an absent key with the
field-missing error, a present non-string value with the type-mismatch
error (naming the dynamic type found), an empty string with the field-empty
error, and a non-empty string succeeds returning exactly that string; the
failure messages of the four kinds are pairwise distinct. -/
theorem scalar_extraction_errors :
    (∀ p : Payment, (∀ m, p.Confirmation ≠ .mapv m) →
      p.GetConfirmationToken = .error "confirmation is not a map")
  ∧ (∀ m, jlookup m "confirmation_token" = none →
      Payment.GetConfirmationToken { Confirmation := .mapv m }
        = .error "confirmation_token not found in confirmation map")
  ∧ (∀ m v, jlookup m "confirmation_token" = some v → (∀ s, v ≠ .str s) →
      Payment.GetConfirmationToken { Confirmation := .mapv m }
        = .error ("confirmation_token is not a string, got " ++ goJsonTypeName v))
  ∧ (∀ m, jlookup m "confirmation_token" = some (.str "") →
      Payment.GetConfirmationToken { Confirmation := .mapv m }
        = .error "confirmation_token is empty")
  ∧ (∀ m s, jlookup m "confirmation_token" = some (.str s) → s ≠ "" →
      Payment.GetConfirmationToken { Confirmation := .mapv m } = .ok s)
  ∧ (∀ p : Payment, (∀ m, p.Metadata ≠ .mapv m) →
      p.GetInvoiceIdFromMetadata
        = .error ("metadata is not a map[string]any, got " ++ goTypeName p.Metadata))
  ∧ (∀ m, jlookup m "invoice_id" = none →
      Payment.GetInvoiceIdFromMetadata { Metadata := .mapv m }
        = .error "invoice_id not found in metadata map")
  ∧ (∀ m v, jlookup m "invoice_id" = some v → (∀ s, v ≠ .str s) →
      Payment.GetInvoiceIdFromMetadata { Metadata := .mapv m }
        = .error ("invoice_id is not a string, got " ++ goJsonTypeName v))
  ∧ (∀ m, jlookup m "invoice_id" = some (.str "") →
      Payment.GetInvoiceIdFromMetadata { Metadata := .mapv m }
        = .error "invoice_id is empty")
  ∧ (∀ m s, jlookup m "invoice_id" = some (.str s) → s ≠ "" →
      Payment.GetInvoiceIdFromMetadata { Metadata := .mapv m } = .ok s)
  ∧ (List.Pairwise (· ≠ ·)
      ["confirmation is not a map",
       "confirmation_token not found in confirmation map",
       "confirmation_token is not a string, got float64",
       "confirmation_token is empty"]
    ∧ List.Pairwise (· ≠ ·)
      ["metadata is not a map[string]any, got string",
       "invoice_id not found in metadata map",
       "invoice_id is not a string, got float64",
       "invoice_id is empty"]) := by
  refine ⟨?_, ?_, ?_, ?_, ?_, ?_, ?_, ?_, ?_, ?_, by decide, by decide⟩
  · intro p hp
    cases hc : p.Confirmation
    case mapv m => exact absurd hc (hp m)
    all_goals simp [Payment.GetConfirmationToken, hc]
  · intro m hm
    simp [Payment.GetConfirmationToken, hm]
  · intro m v hm hv
    cases v
    case str s => exact absurd rfl (hv s)
    all_goals simp [Payment.GetConfirmationToken, hm]
  · intro m hm
    simp [Payment.GetConfirmationToken, hm]
  · intro m s hm hs
    simp [Payment.GetConfirmationToken, hm, hs]
  · intro p hp
    cases hc : p.Metadata
    case mapv m => exact absurd hc (hp m)
    all_goals simp [Payment.GetInvoiceIdFromMetadata, hc]
  · intro m hm
    simp [Payment.GetInvoiceIdFromMetadata, hm]
  · intro m v hm hv
    cases v
    case str s => exact absurd rfl (hv s)
    all_goals simp [Payment.GetInvoiceIdFromMetadata, hm]
  · intro m hm
    simp [Payment.GetInvoiceIdFromMetadata, hm]
  · intro m s hm hs
    simp [Payment.GetInvoiceIdFromMetadata, hm, hs]

/-- Witness for C5: the spec's concrete examples — a nil confirmation, `{}`,
`{"confirmation_token": 42}`, `{"confirmation_token": ""}`,
`{"confirmation_token": "tok_1"}`, and the metadata analogues. -/
theorem scalar_extraction_errors_witness :
    Payment.GetConfirmationToken { Confirmation := .other "<nil>" }
      = .error "confirmation is not a map"
  ∧ Payment.GetConfirmationToken { Confirmation := .mapv [] }
      = .error "confirmation_token not found in confirmation map"
  ∧ Payment.GetConfirmationToken { Confirmation := .mapv [("confirmation_token", .num 42)] }
      = .error "confirmation_token is not a string, got float64"
  ∧ Payment.GetConfirmationToken { Confirmation := .mapv [("confirmation_token", .str "")] }
      = .error "confirmation_token is empty"
  ∧ Payment.GetConfirmationToken { Confirmation := .mapv [("confirmation_token", .str "tok_1")] }
      = .ok "tok_1"
  ∧ Payment.GetInvoiceIdFromMetadata { Metadata := .strv "x" }
      = .error "metadata is not a map[string]any, got string"
  ∧ Payment.GetInvoiceIdFromMetadata { Metadata := .mapv [("invoice_id", .str "inv-1")] }
      = .ok "inv-1" := by
  obtain ⟨h1, h2, h3, h4, h5, m1, m2, m3, m4, m5, hdist⟩ := scalar_extraction_errors
  refine ⟨h1 _ ?_, h2 [] rfl, ?_, h4 _ rfl, h5 _ "tok_1" rfl (by decide), ?_,
    m5 _ "inv-1" rfl (by decide)⟩
  · intro m h; cases h
  · exact h3 _ (.num 42) rfl (fun s h => by cases h)
  · exact m1 { Metadata := .strv "x" } (fun m h => by cases h)

/-- Claim C4: resolving the SBP variant from a generic mapping whose decoded
discriminator differs from `"sbp"` fails with the discriminator-mismatch
error reporting the actual value found, and a successful `GetPaymentMethodSbp`
result always carries the `"sbp"` discriminator (never a mismatched
variant). -/
theorem sbp_discriminator_mismatch :
    (∀ (m : List (String × JsonValue)) (sbp : SBP),
        decodeSBP m = .ok sbp → sbp.paymentMethod.Type_ ≠ PaymentTypeSBP →
        (Payment.GetPaymentMethodSbp { PaymentMethod := .mapv m }).1
          = .err ("payment method is not SBP, got " ++ sbp.paymentMethod.Type_))
  ∧ (∀ (p : Payment) (sbp : SBP),
        (p.GetPaymentMethodSbp).1 = .ok sbp → sbp.paymentMethod.Type_ = PaymentTypeSBP) := by
  constructor
  · intro m sbp hdec hne
    simp [Payment.GetPaymentMethodSbp, convertPaymentMethod, sbpGoType, hdec, hne]
  · intro p sbp h
    unfold Payment.GetPaymentMethodSbp at h
    cases hc : convertPaymentMethod sbpGoType p.PaymentMethod with
    | ok a =>
      rw [hc] at h
      by_cases ht : a.paymentMethod.Type_ = PaymentTypeSBP
      · simp [ht] at h
        rw [← h]
        exact ht
      · simp [ht] at h
    | err e =>
      rw [hc] at h
      cases h
    | panics msg =>
      rw [hc] at h
      cases h

/-- Witness for C4: the spec's example — a mapping shaped as an SBP method
whose `type` is `"bank_card"` fails reporting `bank_card`. -/
theorem sbp_discriminator_mismatch_witness :
    (Payment.GetPaymentMethodSbp { PaymentMethod := .mapv [("type", .str "bank_card")] }).1
      = .err "payment method is not SBP, got bank_card" := by
  have h := sbp_discriminator_mismatch.1 [("type", .str "bank_card")]
    { paymentMethod := { Type_ := "bank_card", ID := "" } } rfl (by decide)
  exact h

/-- Claim C7: `convertPaymentMethod` is extensionally the spec's ordered
resolution strategy (exact type match, then pointer dereference, then
decode-from-mapping) for both modelled variant instantiations, and a source
value of none of the three resolvable shapes fails with the
unsupported-source-shape error reporting the encountered dynamic type. -/
theorem convert_ordered_resolution :
    (∀ v : GoValue,
        convertPaymentMethod sbpGoType v = specResolveVariant sbpGoType v
      ∧ convertPaymentMethod baseGoType v = specResolveVariant baseGoType v)
  ∧ (∀ (T : Type) (gt : GoStructType T) (v : GoValue),
        gt.asVal v = none → gt.asPtr v = none → (∀ m, v ≠ .mapv m) →
        convertPaymentMethod gt v
          = .err ("unsupported payment method type: " ++ goTypeName v)) := by
  constructor
  · intro v
    constructor
    · cases v <;> rfl
    · cases v <;> rfl
  · intro T gt v h1 h2 h3
    cases v
    case mapv m => exact absurd rfl (h3 m)
    all_goals simp only [convertPaymentMethod, h1, h2]

/-- Witness for C7: a plain string and a base-method value are not
SBP-resolvable shapes and fail reporting their dynamic types. -/
theorem convert_ordered_resolution_witness :
    convertPaymentMethod sbpGoType (.strv "x")
      = .err "unsupported payment method type: string"
  ∧ convertPaymentMethod sbpGoType (.baseVal { Type_ := "sbp", ID := "" })
      = .err "unsupported payment method type: yoopayment.BasePaymentMethod" := by
  constructor
  · exact convert_ordered_resolution.2 SBP sbpGoType (.strv "x") rfl rfl
      (fun m h => by cases h)
  · exact convert_ordered_resolution.2 SBP sbpGoType
      (.baseVal { Type_ := "sbp", ID := "" }) rfl rfl (fun m h => by cases h)

/-- Claim C8: a generic mapping carrying the base variant's shared fields
resolves through `GetBasePaymentMethod` successfully and the re-encode/decode
round-trip leaves every shared field's value unchanged. -/
theorem base_method_roundtrip :
    ∀ (m : List (String × JsonValue)) (t i : String),
      jlookup m "type" = some (.str t) → jlookup m "id" = some (.str i) →
      Payment.GetBasePaymentMethod { PaymentMethod := .mapv m }
        = .ok { Type_ := t, ID := i } := by
  intro m t i ht hi
  simp only [Payment.GetBasePaymentMethod, convertPaymentMethod, baseGoType,
    decodeBasePaymentMethod, decodeStringField, ht, hi]
  rfl

/-- Witness for C8: `{"type": "bank_card", "id": "pm-1"}` resolves with both
shared fields intact. -/
theorem base_method_roundtrip_witness :
    Payment.GetBasePaymentMethod
        { PaymentMethod := .mapv [("type", .str "bank_card"), ("id", .str "pm-1")] }
      = .ok { Type_ := "bank_card", ID := "pm-1" } :=
  base_method_roundtrip [("type", .str "bank_card"), ("id", .str "pm-1")]
    "bank_card" "pm-1" rfl rfl

/-- Claim C9 — refuted by the code: SBP-variant resolution is NOT free of
console output; every successful conversion (here the mapping
`{"type": "sbp"}`, and likewise the mismatching `{"type": "bank_card"}`)
executes the diagnostic `fmt.Println("ALE", sbp.Type)` and emits a console
line, instead of communicating only through the returned value. -/
theorem sbp_resolution_prints_debug :
    (Payment.GetPaymentMethodSbp { PaymentMethod := .mapv [("type", .str "sbp")] }).2
      = ["ALE sbp"]
  ∧ (Payment.GetPaymentMethodSbp { PaymentMethod := .mapv [("type", .str "bank_card")] }).2
      = ["ALE bank_card"]
  ∧ ["ALE sbp"] ≠ ([] : List String) :=
  ⟨rfl, rfl, by decide⟩

/-- Claim C10: converting a nil variant pointer takes the `case *T` arm,
dereferences the nil pointer and panics — for both modelled variant types
and through both accessors — rather than returning any error value. -/
theorem nil_pointer_convert_panics :
    convertPaymentMethod sbpGoType (.sbpPtr none) = .panics nilDerefMsg
  ∧ convertPaymentMethod baseGoType (.basePtr none) = .panics nilDerefMsg
  ∧ (Payment.GetPaymentMethodSbp { PaymentMethod := .sbpPtr none }).1 = .panics nilDerefMsg
  ∧ Payment.GetBasePaymentMethod { PaymentMethod := .basePtr none } = .panics nilDerefMsg :=
  ⟨rfl, rfl, rfl, rfl⟩

/-- Claim C1: setting a non-empty key on a handler whose slot is empty
stores it — reading the builder-returned handler's stored key immediately
yields that key — and after one dispatch through the handler the stored key
reads empty. -/
theorem idempotency_set_then_dispatch_clears
    (p : PaymentHandler) (k : String) (c : Client) (method endpoint body : String)
    (params : List (String × String)) (entropy : Nat)
    (hslot : p.idempotencyKey = "") (_hk : k ≠ "") :
    (p.SetIdempotencyKey k).idempotencyKey = k
  ∧ ((p.SetIdempotencyKey k).dispatch c method endpoint body params entropy).2.idempotencyKey
      = "" := by
  constructor
  · simp [PaymentHandler.SetIdempotencyKey, hslot]
  · simp [PaymentHandler.dispatch, PaymentHandler.ConsumeOrGenerate]

/-- Witness for C1 at a fresh handler and the key `"key-1"`. -/
theorem idempotency_set_then_dispatch_clears_witness :
    ((NewPaymentHandler none).SetIdempotencyKey "key-1").idempotencyKey = "key-1"
  ∧ (((NewPaymentHandler none).SetIdempotencyKey "key-1").dispatch
      (NewClient "acc" "sec") "POST" "payments" "" [] 0).2.idempotencyKey = "" :=
  idempotency_set_then_dispatch_clears (NewPaymentHandler none) "key-1"
    (NewClient "acc" "sec") "POST" "payments" "" [] 0 rfl (by decide)

/-- Counterexample to C2 as stated: `DELETE` is a state-mutating HTTP method
under the spec's read-only/state-mutating split, yet the dispatcher attaches
neither the idempotency header nor the JSON content type to a DELETE
request — the header rule in makeRequest is tied to POST alone, not to
state-mutation in general. -/
theorem dispatch_header_mutating_counterexample :
    isStateMutating "DELETE" = true
  ∧ headerGet (makeRequest (NewClient "acc" "sec") "DELETE" "payments" "" [] "key-1" 0).headers
      "Idempotence-Key" = none
  ∧ headerGet (makeRequest (NewClient "acc" "sec") "DELETE" "payments" "" [] "key-1" 0).headers
      "Content-Type" = none :=
  ⟨rfl, rfl, rfl⟩

/-- Claim C2 (amended): the dispatcher sets the `Content-Type:
application/json` and `Idempotence-Key` headers if and only if the method is
`POST` (the only state-mutating method it distinguishes); in particular every
read-only request (e.g. `GET`) carries neither header. -/
theorem dispatch_header_post_iff
    (c : Client) (method endpoint body key : String) (params : List (String × String))
    (entropy : Nat) :
    ((headerGet (makeRequest c method endpoint body params key entropy).headers
        "Idempotence-Key").isSome = true ↔ method = "POST")
  ∧ ((headerGet (makeRequest c method endpoint body params key entropy).headers
        "Content-Type").isSome = true ↔ method = "POST")
  ∧ (method = "GET" →
        headerGet (makeRequest c method endpoint body params key entropy).headers
          "Idempotence-Key" = none
      ∧ headerGet (makeRequest c method endpoint body params key entropy).headers
          "Content-Type" = none) := by
  by_cases hm : method = "POST"
  · subst hm
    refine ⟨?_, ?_, ?_⟩
    · simp [makeRequest, headerGet_setHeader_eq, headerGet_setHeader_ne]
    · simp [makeRequest, headerGet_setHeader_eq, headerGet_setHeader_ne]
    · intro h
      exact absurd h (by decide)
  · refine ⟨?_, ?_, ?_⟩
    · simp [makeRequest, hm, headerGet, setHeader]
    · simp [makeRequest, hm, headerGet, setHeader]
    · intro _
      constructor
      · simp [makeRequest, hm, headerGet, setHeader]
      · simp [makeRequest, hm, headerGet, setHeader]

/-- Witness for C2 (amended): a POST carries the idempotency header, a GET
does not. -/
theorem dispatch_header_post_iff_witness :
    (headerGet (makeRequest (NewClient "a" "s") "POST" "payments" "" [] "k" 0).headers
        "Idempotence-Key").isSome = true
  ∧ headerGet (makeRequest (NewClient "a" "s") "GET" "payments" "" [] "k" 0).headers
      "Idempotence-Key" = none := by
  constructor
  · exact (dispatch_header_post_iff (NewClient "a" "s") "POST" "payments" "" "k" [] 0).1.mpr rfl
  · exact ((dispatch_header_post_iff (NewClient "a" "s") "GET" "payments" "" "k" [] 0).2.2 rfl).1

/-- Counterexample to C3 as stated: the claim quantifies over every mutating
dispatch, but a DELETE dispatch is state-mutating and, with the empty string
supplied as the key, the dispatcher attaches no idempotency header at all —
the freshly generated token never reaches the wire, because the header block
in makeRequest runs only for POST. -/
theorem generated_key_mutating_counterexample :
    isStateMutating "DELETE" = true
  ∧ headerGet (makeRequest (NewClient "acc" "sec") "DELETE" "payments" "" [] "" 7).headers
      "Idempotence-Key" = none :=
  ⟨rfl, rfl⟩

/-- Claim C3 (amended): on a POST dispatch — the one state-mutating method
the dispatcher distinguishes — with an empty supplied key, the dispatcher
attaches a freshly generated, provably non-empty token, so the idempotency
header on the wire is never empty; with a non-empty supplied key, exactly
that key is attached. -/
theorem dispatch_idempotency_key_generated_nonempty
    (c : Client) (endpoint body key : String) (params : List (String × String))
    (entropy : Nat) :
    (key = "" →
        headerGet (makeRequest c "POST" endpoint body params key entropy).headers
          "Idempotence-Key" = some (uuidNewString entropy)
      ∧ uuidNewString entropy ≠ "")
  ∧ (key ≠ "" →
        headerGet (makeRequest c "POST" endpoint body params key entropy).headers
          "Idempotence-Key" = some key) := by
  constructor
  · intro hk
    subst hk
    constructor
    · simp [makeRequest, headerGet_setHeader_eq, headerGet_setHeader_ne]
    · exact uuidNewString_ne_empty entropy
  · intro hk
    simp [makeRequest, hk, headerGet_setHeader_eq, headerGet_setHeader_ne]

/-- Witness for C3: with no key preset a generated 36-character token rides
the header; with the key `"key-9"` preset exactly it rides the header. -/
theorem dispatch_idempotency_key_generated_nonempty_witness :
    (headerGet (makeRequest (NewClient "acc" "sec") "POST" "payments" "" [] "" 5).headers
        "Idempotence-Key" = some (uuidNewString 5)
      ∧ uuidNewString 5 ≠ "")
  ∧ headerGet (makeRequest (NewClient "acc" "sec") "POST" "payments" "" [] "key-9" 5).headers
      "Idempotence-Key" = some "key-9" := by
  constructor
  · exact (dispatch_idempotency_key_generated_nonempty
      (NewClient "acc" "sec") "payments" "" "" [] 5).1 rfl
  · exact (dispatch_idempotency_key_generated_nonempty
      (NewClient "acc" "sec") "payments" "" "key-9" [] 5).2 (by decide)
